import Mathlib

/-!
Shallow embedding of `src/app/caps-controller-manager/main.go` (sidero).

The program is a single startup/orchestration `main`:
flag parsing, a debug-server goroutine, an event broadcaster with a
burst-size-100 correlator, manager construction, a second (default)
broadcaster feeding a sink and a recorder, and a mode switch on
`webhook-port`: `0` registers three reconcilers (MetalCluster,
MetalMachine, ServerBinding) with `MaxConcurrentReconciles: 10`,
nonzero registers four webhooks (MetalCluster, MetalMachine,
MetalMachineTemplate, ServerBinding).  Any failure logs and exits 1.

External calls that can fail (GetConfigOrDie, NewManager, NewForConfig,
each SetupWithManager / SetupWebhookWithManager, mgr.Start, the debug
listener) are modelled by an environment `Env` supplying each call's
error result; `runMain` then deterministically replays the main
goroutine, producing a `Trace` of the observable startup effects.
The debug-server goroutine runs concurrently; its body is embedded as
the separate function `debugServerGoroutine`.
-/

/-- The three CLI flags of `main` (lines 53-61 of main.go). -/
structure Config where
  metricsAddr : String
  enableLeaderElection : Bool
  webhookPort : Int
  deriving DecidableEq

/-- Flag defaults as registered with `flag.StringVar` / `BoolVar` / `IntVar`. -/
def defaultConfig : Config :=
  { metricsAddr := ":8080", enableLeaderElection := true, webhookPort := 0 }

/-- A command-line flag assignment: name plus a typed value. -/
inductive FlagVal
  | str (s : String)
  | bool (b : Bool)
  | int (i : Int)
  deriving DecidableEq

/-- Applying one flag assignment to the configuration, per the three
`flag.*Var` registrations; an assignment to an unknown name or with the
wrong type is ignored here (the Go flag package would reject it before
`main`'s logic runs). -/
def applyFlag (c : Config) : String × FlagVal → Config
  | ("metrics-addr", .str s) => { c with metricsAddr := s }
  | ("enable-leader-election", .bool b) => { c with enableLeaderElection := b }
  | ("webhook-port", .int i) => { c with webhookPort := i }
  | _ => c

/-- `flag.Parse`: defaults overridden left-to-right by supplied assignments. -/
def flagParse (args : List (String × FlagVal)) : Config :=
  args.foldl applyFlag defaultConfig

/-- The scheme groups added in `init()` via `AddToScheme`. -/
inductive SchemeGroup
  | clientgo
  | capiv1
  | infrav1alpha2
  | infrav1alpha3
  | metalv1alpha1
  deriving DecidableEq

/-- The process-wide scheme, populated once in `init()`. -/
def scheme : List SchemeGroup :=
  [.clientgo, .capiv1, .infrav1alpha2, .infrav1alpha3, .metalv1alpha1]

/-- `cgrecord.CorrelatorOptions`; only `BurstSize` is ever set by this
program, the remaining fields stay at their zero values and are omitted. -/
structure CorrelatorOptions where
  burstSize : Int
  deriving DecidableEq

/-- A broadcaster value: its correlator options plus an allocation
identity (`idx`) distinguishing the two separately-constructed
broadcaster objects of this program. -/
structure Broadcaster where
  idx : Nat
  correlator : CorrelatorOptions
  deriving DecidableEq

/-- `cgrecord.NewBroadcasterWithCorrelatorOptions(cgrecord.CorrelatorOptions{BurstSize: 100})`,
line 79-81: the broadcaster handed to the Manager constructor. -/
def mainBroadcaster : Broadcaster :=
  { idx := 0, correlator := { burstSize := 100 } }

/-- `cgrecord.NewBroadcaster()`, line 102: the second broadcaster, with
default (zero-valued) correlator options. -/
def sinkEventBroadcaster : Broadcaster :=
  { idx := 1, correlator := { burstSize := 0 } }

/-- The `ctrl.Options` literal passed to `ctrl.NewManager` (lines 83-90). -/
structure ManagerOptions where
  scheme : List SchemeGroup
  metricsBindAddress : String
  leaderElection : Bool
  leaderElectionID : String
  port : Int
  eventBroadcaster : Broadcaster
  deriving DecidableEq

/-- The options `main` builds from the parsed flags: every non-flag field
is a fixed constant. -/
def mgrOptionsOf (cfg : Config) : ManagerOptions :=
  { scheme := scheme
    metricsBindAddress := cfg.metricsAddr
    leaderElection := cfg.enableLeaderElection
    leaderElectionID := "controller-leader-election-capm"
    port := cfg.webhookPort
    eventBroadcaster := mainBroadcaster }

/-- The constructed manager: its options plus its client handle
(a single client per process, identified by `0`). -/
structure Manager where
  opts : ManagerOptions
  client : Nat
  deriving DecidableEq

/-- The manager `ctrl.NewManager` returns on success. -/
def theManager (cfg : Config) : Manager :=
  { opts := mgrOptionsOf cfg, client := 0 }

/-- `eventBroadcaster.NewRecorder(mgr.GetScheme(), corev1.EventSource{Component: "caps-controller-manager"})`,
lines 108-110. -/
structure Recorder where
  broadcaster : Broadcaster
  scheme : List SchemeGroup
  component : String
  deriving DecidableEq

/-- The recorder `main` creates from the second broadcaster. -/
def mainRecorder (mgr : Manager) : Recorder :=
  { broadcaster := sinkEventBroadcaster
    scheme := mgr.opts.scheme
    component := "caps-controller-manager" }

/-- Names of the three reconcilers registered in reconciliation mode. -/
inductive ReconcilerName
  | MetalCluster
  | MetalMachine
  | ServerBinding
  deriving DecidableEq

/-- Names of the four webhooks registered in webhook mode. -/
inductive WebhookName
  | MetalCluster
  | MetalMachine
  | MetalMachineTemplate
  | ServerBinding
  deriving DecidableEq

/-- One registered reconciler: the fields `main` sets in the composite
literal, plus the `controller.Options{MaxConcurrentReconciles: 10}`
passed to `SetupWithManager`.  `recorder` is `none` when the literal
sets no `Recorder` field (the MetalCluster reconciler). -/
structure ReconcilerEntry where
  name : ReconcilerName
  client : Nat
  logName : List String
  scheme : List SchemeGroup
  recorder : Option Recorder
  maxConcurrentReconciles : Int
  deriving DecidableEq

/-- Lines 113-117: `controllers.MetalClusterReconciler{Client, Log, Scheme}` —
no `Recorder` field is set. -/
def metalClusterEntry (mgr : Manager) : ReconcilerEntry :=
  { name := .MetalCluster
    client := mgr.client
    logName := ["controllers", "MetalCluster"]
    scheme := mgr.opts.scheme
    recorder := none
    maxConcurrentReconciles := 10 }

/-- Lines 122-127: `controllers.MetalMachineReconciler{Client, Log, Scheme, Recorder}`. -/
def metalMachineEntry (mgr : Manager) (rec : Recorder) : ReconcilerEntry :=
  { name := .MetalMachine
    client := mgr.client
    logName := ["controllers", "MetalMachine"]
    scheme := mgr.opts.scheme
    recorder := some rec
    maxConcurrentReconciles := 10 }

/-- Lines 132-137: `controllers.ServerBindingReconciler{Client, Log, Scheme, Recorder}`. -/
def serverBindingEntry (mgr : Manager) (rec : Recorder) : ReconcilerEntry :=
  { name := .ServerBinding
    client := mgr.client
    logName := ["controllers", "ServerBinding"]
    scheme := mgr.opts.scheme
    recorder := some rec
    maxConcurrentReconciles := 10 }

/-- One `setupLog.Error(err, msg, kvs...)` call. -/
structure LogEntry where
  err : String
  msg : String
  kvs : List (String × String)
  deriving DecidableEq

/-- The error results the environment supplies for each fallible external
call `main` makes; `none` means the call succeeds. -/
structure Env where
  debugServeErr : Option String
  getConfigErr : Option String
  newManagerErr : Option String
  newForConfigErr : Option String
  metalClusterSetupErr : Option String
  metalMachineSetupErr : Option String
  serverBindingSetupErr : Option String
  whMetalClusterErr : Option String
  whMetalMachineErr : Option String
  whMetalMachineTemplateErr : Option String
  whServerBindingErr : Option String
  mgrStartErr : Option String
  deriving DecidableEq

/-- The environment in which every external call succeeds. -/
def okEnv : Env :=
  { debugServeErr := none, getConfigErr := none, newManagerErr := none
    newForConfigErr := none, metalClusterSetupErr := none
    metalMachineSetupErr := none, serverBindingSetupErr := none
    whMetalClusterErr := none, whMetalMachineErr := none
    whMetalMachineTemplateErr := none, whServerBindingErr := none
    mgrStartErr := none }

/-- Whether every call `main`'s own goroutine makes succeeds
(the debug goroutine is separate and excluded). -/
def Env.allOk (e : Env) : Bool :=
  e.getConfigErr.isNone && e.newManagerErr.isNone && e.newForConfigErr.isNone &&
  e.metalClusterSetupErr.isNone && e.metalMachineSetupErr.isNone &&
  e.serverBindingSetupErr.isNone && e.whMetalClusterErr.isNone &&
  e.whMetalMachineErr.isNone && e.whMetalMachineTemplateErr.isNone &&
  e.whServerBindingErr.isNone && e.mgrStartErr.isNone

/-- Observable effects of one run of `main`'s goroutine.  `exit` is the
process exit status: `some 1` after any `os.Exit(1)`, `some 0` when
`mgr.Start` returns `nil` and `main` falls off the end, `none` only in
intermediate states. -/
structure Trace where
  broadcastersConstructed : List Broadcaster
  mgrOptions : Option ManagerOptions
  sinkBroadcaster : Option Broadcaster
  recorder : Option Recorder
  attemptedReconcilers : List ReconcilerName
  registeredReconcilers : List ReconcilerEntry
  attemptedWebhooks : List WebhookName
  registeredWebhooks : List WebhookName
  managerStarted : Bool
  errorLog : List LogEntry
  exit : Option Int
  deriving DecidableEq

/-- Lines 112-141: the `webhookPort == 0` branch.  Each registration is
attempted in order; the first failure logs
`"unable to create controller", "controller", <name>` and exits 1. -/
def reconBranch (env : Env) (mgr : Manager) (rec : Recorder) (t : Trace) : Trace :=
  let t : Trace := { t with attemptedReconcilers := t.attemptedReconcilers ++ [.MetalCluster] }
  match env.metalClusterSetupErr with
  | some e =>
      { t with
        errorLog := t.errorLog ++ [⟨e, "unable to create controller", [("controller", "MetalCluster")]⟩]
        exit := some 1 }
  | none =>
  let t : Trace := { t with
    registeredReconcilers := t.registeredReconcilers ++ [metalClusterEntry mgr]
    attemptedReconcilers := t.attemptedReconcilers ++ [.MetalMachine] }
  match env.metalMachineSetupErr with
  | some e =>
      { t with
        errorLog := t.errorLog ++ [⟨e, "unable to create controller", [("controller", "MetalMachine")]⟩]
        exit := some 1 }
  | none =>
  let t : Trace := { t with
    registeredReconcilers := t.registeredReconcilers ++ [metalMachineEntry mgr rec]
    attemptedReconcilers := t.attemptedReconcilers ++ [.ServerBinding] }
  match env.serverBindingSetupErr with
  | some e =>
      { t with
        errorLog := t.errorLog ++ [⟨e, "unable to create controller", [("controller", "ServerBinding")]⟩]
        exit := some 1 }
  | none =>
      { t with registeredReconcilers := t.registeredReconcilers ++ [serverBindingEntry mgr rec] }

/-- Lines 142-161: the `webhookPort != 0` branch: four
`SetupWebhookWithManager` calls, first failure logs
`"unable to create webhook", "webhook", <name>` and exits 1. -/
def webhookBranch (env : Env) (t : Trace) : Trace :=
  let t : Trace := { t with attemptedWebhooks := t.attemptedWebhooks ++ [.MetalCluster] }
  match env.whMetalClusterErr with
  | some e =>
      { t with
        errorLog := t.errorLog ++ [⟨e, "unable to create webhook", [("webhook", "MetalCluster")]⟩]
        exit := some 1 }
  | none =>
  let t : Trace := { t with
    registeredWebhooks := t.registeredWebhooks ++ [.MetalCluster]
    attemptedWebhooks := t.attemptedWebhooks ++ [.MetalMachine] }
  match env.whMetalMachineErr with
  | some e =>
      { t with
        errorLog := t.errorLog ++ [⟨e, "unable to create webhook", [("webhook", "MetalMachine")]⟩]
        exit := some 1 }
  | none =>
  let t : Trace := { t with
    registeredWebhooks := t.registeredWebhooks ++ [.MetalMachine]
    attemptedWebhooks := t.attemptedWebhooks ++ [.MetalMachineTemplate] }
  match env.whMetalMachineTemplateErr with
  | some e =>
      { t with
        errorLog := t.errorLog ++ [⟨e, "unable to create webhook", [("webhook", "MetalMachineTemplate")]⟩]
        exit := some 1 }
  | none =>
  let t : Trace := { t with
    registeredWebhooks := t.registeredWebhooks ++ [.MetalMachineTemplate]
    attemptedWebhooks := t.attemptedWebhooks ++ [.ServerBinding] }
  match env.whServerBindingErr with
  | some e =>
      { t with
        errorLog := t.errorLog ++ [⟨e, "unable to create webhook", [("webhook", "ServerBinding")]⟩]
        exit := some 1 }
  | none =>
      { t with registeredWebhooks := t.registeredWebhooks ++ [.ServerBinding] }

/-- Lines 164-169: `mgr.Start(ctrl.SetupSignalHandler())`; a run-loop
error logs `"problem running manager"` and exits 1, otherwise `main`
returns and the process exits 0.  Only reached when no earlier step
called `os.Exit`. -/
def startStep (env : Env) (t : Trace) : Trace :=
  match t.exit with
  | some _ => t
  | none =>
      match env.mgrStartErr with
      | some e =>
          { t with
            managerStarted := true
            errorLog := t.errorLog ++ [⟨e, "problem running manager", []⟩]
            exit := some 1 }
      | none => { t with managerStarted := true, exit := some 0 }

/-- The main goroutine of `main` (lines 52-170), replayed against the
environment's call results.  The debug goroutine launched at line 67 is
embedded separately as `debugServerGoroutine`. -/
def runMain (cfg : Config) (env : Env) : Trace :=
  let t : Trace :=
    { broadcastersConstructed := [mainBroadcaster]
      mgrOptions := none, sinkBroadcaster := none, recorder := none
      attemptedReconcilers := [], registeredReconcilers := []
      attemptedWebhooks := [], registeredWebhooks := []
      managerStarted := false, errorLog := [], exit := none }
  match env.getConfigErr with
  | some _ => { t with exit := some 1 }
  | none =>
  let opts := mgrOptionsOf cfg
  match env.newManagerErr with
  | some e =>
      { t with
        mgrOptions := some opts
        errorLog := [⟨e, "unable to start manager", []⟩]
        exit := some 1 }
  | none =>
  let mgr : Manager := theManager cfg
  let t : Trace := { t with mgrOptions := some opts }
  match env.newForConfigErr with
  | some e =>
      { t with errorLog := [⟨e, "unable to create k8s client", []⟩], exit := some 1 }
  | none =>
  let t : Trace := { t with
    broadcastersConstructed := t.broadcastersConstructed ++ [sinkEventBroadcaster],
    sinkBroadcaster := some sinkEventBroadcaster,
    recorder := some (mainRecorder mgr) }
  let t : Trace :=
    if cfg.webhookPort = 0 then
      reconBranch env mgr (mainRecorder mgr) t
    else
      webhookBranch env t
  startStep env t

/-- Fixed local address of the debug listener. -/
def debugAddr : String := ":9994"

/-- Outcome of the goroutine launched at lines 67-75. -/
structure GoResult where
  exit : Option Int
  errorLog : List LogEntry
  deriving DecidableEq

/-- The debug-server goroutine body: if `debug.ListenAndServe` returns an
error it logs `"failed to start debug server"` and calls `os.Exit(1)`;
otherwise the goroutine just ends. -/
def debugServerGoroutine (serveErr : Option String) : GoResult :=
  match serveErr with
  | some e => { exit := some 1, errorLog := [⟨e, "failed to start debug server", []⟩] }
  | none => { exit := none, errorLog := [] }

/-- The process terminates with status 1 when either goroutine calls
`os.Exit(1)`. -/
def processExitsOne (cfg : Config) (env : Env) : Bool :=
  ((debugServerGoroutine env.debugServeErr).exit == some 1) ||
    ((runMain cfg env).exit == some 1)

/-- Render a reconciler name as the string used in the error log. -/
def ReconcilerName.str : ReconcilerName → String
  | .MetalCluster => "MetalCluster"
  | .MetalMachine => "MetalMachine"
  | .ServerBinding => "ServerBinding"

/-- Render a webhook name as the string used in the error log. -/
def WebhookName.str : WebhookName → String
  | .MetalCluster => "MetalCluster"
  | .MetalMachine => "MetalMachine"
  | .MetalMachineTemplate => "MetalMachineTemplate"
  | .ServerBinding => "ServerBinding"

/-- The first reconciler registration the environment makes fail, in the
order `main` attempts them. -/
def firstFailingReconciler (e : Env) : Option ReconcilerName :=
  if e.metalClusterSetupErr.isSome then some .MetalCluster
  else if e.metalMachineSetupErr.isSome then some .MetalMachine
  else if e.serverBindingSetupErr.isSome then some .ServerBinding
  else none

/-- The first webhook registration the environment makes fail, in the
order `main` attempts them. -/
def firstFailingWebhook (e : Env) : Option WebhookName :=
  if e.whMetalClusterErr.isSome then some .MetalCluster
  else if e.whMetalMachineErr.isSome then some .MetalMachine
  else if e.whMetalMachineTemplateErr.isSome then some .MetalMachineTemplate
  else if e.whServerBindingErr.isSome then some .ServerBinding
  else none

/-- The reconciler registrations attempted up to and including `n`. -/
def reconAttemptedUpTo : ReconcilerName → List ReconcilerName
  | .MetalCluster => [.MetalCluster]
  | .MetalMachine => [.MetalCluster, .MetalMachine]
  | .ServerBinding => [.MetalCluster, .MetalMachine, .ServerBinding]

/-- The webhook registrations attempted up to and including `n`. -/
def whAttemptedUpTo : WebhookName → List WebhookName
  | .MetalCluster => [.MetalCluster]
  | .MetalMachine => [.MetalCluster, .MetalMachine]
  | .MetalMachineTemplate => [.MetalCluster, .MetalMachine, .MetalMachineTemplate]
  | .ServerBinding => [.MetalCluster, .MetalMachine, .MetalMachineTemplate, .ServerBinding]

/-- An otherwise-healthy environment in which `ctrl.NewManager` fails. -/
def mgrConstructionFailEnv : Env :=
  { okEnv with newManagerErr := some "connection refused" }

/-- An otherwise-healthy environment in which the debug listener fails. -/
def debugFailEnv : Env :=
  { okEnv with debugServeErr := some "address already in use" }

/-- An otherwise-healthy environment in which the MetalMachine reconciler
registration fails. -/
def metalMachineFailEnv : Env :=
  { okEnv with metalMachineSetupErr := some "setup failed" }

/-- A webhook-mode configuration, as in the spec scenario `webhook-port=9443`. -/
def webhookCfg : Config :=
  { defaultConfig with webhookPort := 9443 }

/-! ### Structural lemmas about the embedding -/

theorem allOk_fields {e : Env} (h : e.allOk = true) :
    e.getConfigErr = none ∧ e.newManagerErr = none ∧ e.newForConfigErr = none ∧
      e.metalClusterSetupErr = none ∧ e.metalMachineSetupErr = none ∧
      e.serverBindingSetupErr = none ∧ e.whMetalClusterErr = none ∧
      e.whMetalMachineErr = none ∧ e.whMetalMachineTemplateErr = none ∧
      e.whServerBindingErr = none ∧ e.mgrStartErr = none := by
  simp [Env.allOk, Option.isNone_iff_eq_none] at h
  tauto

theorem startStep_of_exit_some {env : Env} {t : Trace} {c : Int} (h : t.exit = some c) :
    startStep env t = t := by
  unfold startStep
  rw [h]

@[simp] theorem startStep_registeredReconcilers (env : Env) (t : Trace) :
    (startStep env t).registeredReconcilers = t.registeredReconcilers := by
  unfold startStep
  cases h : t.exit <;> cases h2 : env.mgrStartErr <;> rfl

@[simp] theorem startStep_registeredWebhooks (env : Env) (t : Trace) :
    (startStep env t).registeredWebhooks = t.registeredWebhooks := by
  unfold startStep
  cases h : t.exit <;> cases h2 : env.mgrStartErr <;> rfl

@[simp] theorem startStep_attemptedReconcilers (env : Env) (t : Trace) :
    (startStep env t).attemptedReconcilers = t.attemptedReconcilers := by
  unfold startStep
  cases h : t.exit <;> cases h2 : env.mgrStartErr <;> rfl

@[simp] theorem startStep_attemptedWebhooks (env : Env) (t : Trace) :
    (startStep env t).attemptedWebhooks = t.attemptedWebhooks := by
  unfold startStep
  cases h : t.exit <;> cases h2 : env.mgrStartErr <;> rfl

@[simp] theorem startStep_mgrOptions (env : Env) (t : Trace) :
    (startStep env t).mgrOptions = t.mgrOptions := by
  unfold startStep
  cases h : t.exit <;> cases h2 : env.mgrStartErr <;> rfl

@[simp] theorem startStep_sinkBroadcaster (env : Env) (t : Trace) :
    (startStep env t).sinkBroadcaster = t.sinkBroadcaster := by
  unfold startStep
  cases h : t.exit <;> cases h2 : env.mgrStartErr <;> rfl

@[simp] theorem startStep_recorder (env : Env) (t : Trace) :
    (startStep env t).recorder = t.recorder := by
  unfold startStep
  cases h : t.exit <;> cases h2 : env.mgrStartErr <;> rfl

@[simp] theorem startStep_broadcastersConstructed (env : Env) (t : Trace) :
    (startStep env t).broadcastersConstructed = t.broadcastersConstructed := by
  unfold startStep
  cases h : t.exit <;> cases h2 : env.mgrStartErr <;> rfl

@[simp] theorem reconBranch_registeredWebhooks (env : Env) (mgr : Manager) (rec : Recorder)
    (t : Trace) : (reconBranch env mgr rec t).registeredWebhooks = t.registeredWebhooks := by
  unfold reconBranch
  cases h1 : env.metalClusterSetupErr <;> cases h2 : env.metalMachineSetupErr <;>
    cases h3 : env.serverBindingSetupErr <;> rfl

@[simp] theorem reconBranch_attemptedWebhooks (env : Env) (mgr : Manager) (rec : Recorder)
    (t : Trace) : (reconBranch env mgr rec t).attemptedWebhooks = t.attemptedWebhooks := by
  unfold reconBranch
  cases h1 : env.metalClusterSetupErr <;> cases h2 : env.metalMachineSetupErr <;>
    cases h3 : env.serverBindingSetupErr <;> rfl

@[simp] theorem reconBranch_mgrOptions (env : Env) (mgr : Manager) (rec : Recorder)
    (t : Trace) : (reconBranch env mgr rec t).mgrOptions = t.mgrOptions := by
  unfold reconBranch
  cases h1 : env.metalClusterSetupErr <;> cases h2 : env.metalMachineSetupErr <;>
    cases h3 : env.serverBindingSetupErr <;> rfl

@[simp] theorem reconBranch_sinkBroadcaster (env : Env) (mgr : Manager) (rec : Recorder)
    (t : Trace) : (reconBranch env mgr rec t).sinkBroadcaster = t.sinkBroadcaster := by
  unfold reconBranch
  cases h1 : env.metalClusterSetupErr <;> cases h2 : env.metalMachineSetupErr <;>
    cases h3 : env.serverBindingSetupErr <;> rfl

@[simp] theorem reconBranch_recorder (env : Env) (mgr : Manager) (rec : Recorder)
    (t : Trace) : (reconBranch env mgr rec t).recorder = t.recorder := by
  unfold reconBranch
  cases h1 : env.metalClusterSetupErr <;> cases h2 : env.metalMachineSetupErr <;>
    cases h3 : env.serverBindingSetupErr <;> rfl

@[simp] theorem reconBranch_broadcastersConstructed (env : Env) (mgr : Manager) (rec : Recorder)
    (t : Trace) :
    (reconBranch env mgr rec t).broadcastersConstructed = t.broadcastersConstructed := by
  unfold reconBranch
  cases h1 : env.metalClusterSetupErr <;> cases h2 : env.metalMachineSetupErr <;>
    cases h3 : env.serverBindingSetupErr <;> rfl

@[simp] theorem reconBranch_managerStarted (env : Env) (mgr : Manager) (rec : Recorder)
    (t : Trace) : (reconBranch env mgr rec t).managerStarted = t.managerStarted := by
  unfold reconBranch
  cases h1 : env.metalClusterSetupErr <;> cases h2 : env.metalMachineSetupErr <;>
    cases h3 : env.serverBindingSetupErr <;> rfl

@[simp] theorem webhookBranch_registeredReconcilers (env : Env) (t : Trace) :
    (webhookBranch env t).registeredReconcilers = t.registeredReconcilers := by
  unfold webhookBranch
  cases h1 : env.whMetalClusterErr <;> cases h2 : env.whMetalMachineErr <;>
    cases h3 : env.whMetalMachineTemplateErr <;> cases h4 : env.whServerBindingErr <;> rfl

@[simp] theorem webhookBranch_attemptedReconcilers (env : Env) (t : Trace) :
    (webhookBranch env t).attemptedReconcilers = t.attemptedReconcilers := by
  unfold webhookBranch
  cases h1 : env.whMetalClusterErr <;> cases h2 : env.whMetalMachineErr <;>
    cases h3 : env.whMetalMachineTemplateErr <;> cases h4 : env.whServerBindingErr <;> rfl

@[simp] theorem webhookBranch_mgrOptions (env : Env) (t : Trace) :
    (webhookBranch env t).mgrOptions = t.mgrOptions := by
  unfold webhookBranch
  cases h1 : env.whMetalClusterErr <;> cases h2 : env.whMetalMachineErr <;>
    cases h3 : env.whMetalMachineTemplateErr <;> cases h4 : env.whServerBindingErr <;> rfl

@[simp] theorem webhookBranch_sinkBroadcaster (env : Env) (t : Trace) :
    (webhookBranch env t).sinkBroadcaster = t.sinkBroadcaster := by
  unfold webhookBranch
  cases h1 : env.whMetalClusterErr <;> cases h2 : env.whMetalMachineErr <;>
    cases h3 : env.whMetalMachineTemplateErr <;> cases h4 : env.whServerBindingErr <;> rfl

@[simp] theorem webhookBranch_recorder (env : Env) (t : Trace) :
    (webhookBranch env t).recorder = t.recorder := by
  unfold webhookBranch
  cases h1 : env.whMetalClusterErr <;> cases h2 : env.whMetalMachineErr <;>
    cases h3 : env.whMetalMachineTemplateErr <;> cases h4 : env.whServerBindingErr <;> rfl

@[simp] theorem webhookBranch_broadcastersConstructed (env : Env) (t : Trace) :
    (webhookBranch env t).broadcastersConstructed = t.broadcastersConstructed := by
  unfold webhookBranch
  cases h1 : env.whMetalClusterErr <;> cases h2 : env.whMetalMachineErr <;>
    cases h3 : env.whMetalMachineTemplateErr <;> cases h4 : env.whServerBindingErr <;> rfl

@[simp] theorem webhookBranch_managerStarted (env : Env) (t : Trace) :
    (webhookBranch env t).managerStarted = t.managerStarted := by
  unfold webhookBranch
  cases h1 : env.whMetalClusterErr <;> cases h2 : env.whMetalMachineErr <;>
    cases h3 : env.whMetalMachineTemplateErr <;> cases h4 : env.whServerBindingErr <;> rfl

theorem reconBranch_mem {env : Env} {mgr : Manager} {rec : Recorder} {t : Trace}
    {r : ReconcilerEntry} (h : r ∈ (reconBranch env mgr rec t).registeredReconcilers) :
    r ∈ t.registeredReconcilers ∨ r = metalClusterEntry mgr ∨
      r = metalMachineEntry mgr rec ∨ r = serverBindingEntry mgr rec := by
  revert h
  unfold reconBranch
  cases h1 : env.metalClusterSetupErr <;> cases h2 : env.metalMachineSetupErr <;>
    cases h3 : env.serverBindingSetupErr <;> intro h <;> simp at h ⊢ <;> tauto

theorem runMain_mgrOptions (cfg : Config) (env : Env) :
    (runMain cfg env).mgrOptions = none ∨
      (runMain cfg env).mgrOptions = some (mgrOptionsOf cfg) := by
  unfold runMain
  cases hg : env.getConfigErr <;> cases hnm : env.newManagerErr <;>
    cases hnf : env.newForConfigErr <;> by_cases hp : cfg.webhookPort = 0 <;> simp [hp]

theorem runMain_mem_reconcilers {cfg : Config} {env : Env} {r : ReconcilerEntry}
    (h : r ∈ (runMain cfg env).registeredReconcilers) :
    r = metalClusterEntry (theManager cfg) ∨
      r = metalMachineEntry (theManager cfg) (mainRecorder (theManager cfg)) ∨
      r = serverBindingEntry (theManager cfg) (mainRecorder (theManager cfg)) := by
  revert h
  unfold runMain
  cases hg : env.getConfigErr <;> cases hnm : env.newManagerErr <;>
    cases hnf : env.newForConfigErr <;> by_cases hp : cfg.webhookPort = 0 <;>
    intro h <;> simp [hp] at h ⊢
  rcases reconBranch_mem h with h1 | h1 | h1 | h1 <;> simp_all

/-- C1: for every configuration, the registered-reconciler and
registered-webhook sets are never both populated; with every external
call succeeding, `webhook-port == 0` registers exactly the three
reconcilers (MetalCluster, MetalMachine, ServerBinding) and zero
webhooks, and `webhook-port != 0` registers exactly the four webhooks
(MetalCluster, MetalMachine, MetalMachineTemplate, ServerBinding) and
zero reconcilers. -/
theorem C1_mode_exclusivity (cfg : Config) (env : Env) :
    ((runMain cfg env).registeredReconcilers = [] ∨
        (runMain cfg env).registeredWebhooks = []) ∧
      (env.allOk = true →
        if cfg.webhookPort = 0 then
          (runMain cfg env).registeredReconcilers.map (fun r => r.name) =
              [.MetalCluster, .MetalMachine, .ServerBinding] ∧
            (runMain cfg env).registeredWebhooks = []
        else
          (runMain cfg env).registeredWebhooks =
              [.MetalCluster, .MetalMachine, .MetalMachineTemplate, .ServerBinding] ∧
            (runMain cfg env).registeredReconcilers = []) := by
  constructor
  · unfold runMain
    cases hg : env.getConfigErr <;> cases hnm : env.newManagerErr <;>
      cases hnf : env.newForConfigErr <;> by_cases hp : cfg.webhookPort = 0 <;> simp [hp]
  · intro hok
    obtain ⟨hg, hnm, hnf, hmc, hmm, hsb, hw1, hw2, hw3, hw4, hms⟩ := allOk_fields hok
    by_cases hp : cfg.webhookPort = 0 <;>
      simp [runMain, reconBranch, webhookBranch, startStep, hp, hg, hnm, hnf, hmc, hmm,
        hsb, hw1, hw2, hw3, hw4, hms, metalClusterEntry, metalMachineEntry,
        serverBindingEntry]

/-- Witness for C1 at the default configuration and the all-success
environment. -/
theorem C1_mode_exclusivity_witness :
    ((runMain defaultConfig okEnv).registeredReconcilers = [] ∨
        (runMain defaultConfig okEnv).registeredWebhooks = []) ∧
      ((runMain defaultConfig okEnv).registeredReconcilers.map (fun r => r.name) =
          [.MetalCluster, .MetalMachine, .ServerBinding] ∧
        (runMain defaultConfig okEnv).registeredWebhooks = []) := by
  have h := C1_mode_exclusivity defaultConfig okEnv
  have h2 := h.2 (by decide)
  rw [if_pos (show defaultConfig.webhookPort = 0 by decide)] at h2
  exact ⟨h.1, h2⟩

/-- C2: every reconciler ever registered has
`MaxConcurrentReconciles = 10`; in reconciliation mode with all calls
succeeding there are exactly three of them and the bound is identical
across them. -/
theorem C2_concurrency_bound (cfg : Config) (env : Env) :
    (∀ r ∈ (runMain cfg env).registeredReconcilers, r.maxConcurrentReconciles = 10) ∧
      (env.allOk = true → cfg.webhookPort = 0 →
        (runMain cfg env).registeredReconcilers.length = 3 ∧
          ∀ r ∈ (runMain cfg env).registeredReconcilers,
            ∀ s ∈ (runMain cfg env).registeredReconcilers,
              r.maxConcurrentReconciles = s.maxConcurrentReconciles) := by
  constructor
  · intro r hr
    rcases runMain_mem_reconcilers hr with h | h | h <;>
      simp [h, metalClusterEntry, metalMachineEntry, serverBindingEntry]
  · intro hok hp
    obtain ⟨hg, hnm, hnf, hmc, hmm, hsb, hw1, hw2, hw3, hw4, hms⟩ := allOk_fields hok
    constructor
    · simp [runMain, reconBranch, startStep, hp, hg, hnm, hnf, hmc, hmm, hsb, hms]
    · intro r hr s hs
      rcases runMain_mem_reconcilers hr with h | h | h <;>
        rcases runMain_mem_reconcilers hs with h2 | h2 | h2 <;>
          simp [h, h2, metalClusterEntry, metalMachineEntry, serverBindingEntry]

/-- Witness for C2: a registered reconciler with bound 10, and three
registered reconcilers, at the default configuration. -/
theorem C2_concurrency_bound_witness :
    (metalClusterEntry (theManager defaultConfig)).maxConcurrentReconciles = 10 ∧
      (runMain defaultConfig okEnv).registeredReconcilers.length = 3 :=
  ⟨(C2_concurrency_bound defaultConfig okEnv).1 _ (by decide),
    ((C2_concurrency_bound defaultConfig okEnv).2 (by decide) (by decide)).1⟩

/-- C3: the broadcaster handed to the Manager constructor always has
correlator burst size 100, independent of every flag: it is the first
broadcaster constructed in every execution, and whenever `NewManager`
is invoked its options carry exactly this broadcaster. -/
theorem C3_burst_size (cfg : Config) (env : Env) :
    mainBroadcaster.correlator.burstSize = 100 ∧
      (mgrOptionsOf cfg).eventBroadcaster = mainBroadcaster ∧
      (runMain cfg env).broadcastersConstructed.head? = some mainBroadcaster ∧
      ((runMain cfg env).mgrOptions = none ∨
        (runMain cfg env).mgrOptions = some (mgrOptionsOf cfg)) := by
  refine ⟨rfl, rfl, ?_, runMain_mgrOptions cfg env⟩
  unfold runMain
  cases hg : env.getConfigErr <;> cases hnm : env.newManagerErr <;>
    cases hnf : env.newForConfigErr <;> by_cases hp : cfg.webhookPort = 0 <;> simp [hp]

/-- C5: the leader-election lease identity in the Manager options is the
fixed string `"controller-leader-election-capm"`, identical for any two
configurations, and these are the only options `NewManager` is ever
called with. -/
theorem C5_lease_identity (cfg cfg₂ : Config) (env : Env) :
    (mgrOptionsOf cfg).leaderElectionID = "controller-leader-election-capm" ∧
      (mgrOptionsOf cfg).leaderElectionID = (mgrOptionsOf cfg₂).leaderElectionID ∧
      ((runMain cfg env).mgrOptions = none ∨
        (runMain cfg env).mgrOptions = some (mgrOptionsOf cfg)) :=
  ⟨rfl, rfl, runMain_mgrOptions cfg env⟩

/-- C8: with no flags supplied, parsing yields
metrics-addr = ":8080", enable-leader-election = true, webhook-port = 0,
and the resulting default mode is reconciliation mode. -/
theorem C8_flag_defaults :
    flagParse [] = defaultConfig ∧
      defaultConfig.metricsAddr = ":8080" ∧
      defaultConfig.enableLeaderElection = true ∧
      defaultConfig.webhookPort = 0 ∧
      (runMain (flagParse []) okEnv).registeredReconcilers.map (fun r => r.name) =
        [.MetalCluster, .MetalMachine, .ServerBinding] ∧
      (runMain (flagParse []) okEnv).registeredWebhooks = [] := by
  refine ⟨rfl, rfl, rfl, rfl, ?_, ?_⟩ <;> decide

/-- Counterexample to C4 as stated: at the default configuration with
every call succeeding, it is not true that every registered reconciler
is bound to the manager's client, the manager's scheme, and the event
recorder — the MetalCluster reconciler literal sets no `Recorder`
field. -/
theorem C4_counterexample :
    ¬ (∀ r ∈ (runMain defaultConfig okEnv).registeredReconcilers,
        r.client = (theManager defaultConfig).client ∧
          r.scheme = (theManager defaultConfig).opts.scheme ∧
          r.recorder.isSome = true) := by
  decide

/-- C4 (amended): in reconciliation mode every registered reconciler is
bound to the manager's client and scheme; MetalMachine and
ServerBinding are additionally bound to the event recorder, while
MetalCluster gets no recorder. -/
theorem C4_recorder_binding (cfg : Config) (env : Env) (hok : env.allOk = true)
    (hp : cfg.webhookPort = 0) :
    (runMain cfg env).registeredReconcilers.length = 3 ∧
      ∀ r ∈ (runMain cfg env).registeredReconcilers,
        r.client = (theManager cfg).client ∧
          r.scheme = (theManager cfg).opts.scheme ∧
          r.recorder = (if r.name = .MetalCluster then none
            else some (mainRecorder (theManager cfg))) := by
  obtain ⟨hg, hnm, hnf, hmc, hmm, hsb, hw1, hw2, hw3, hw4, hms⟩ := allOk_fields hok
  constructor
  · simp [runMain, reconBranch, startStep, hp, hg, hnm, hnf, hmc, hmm, hsb, hms]
  · intro r hr
    rcases runMain_mem_reconcilers hr with h | h | h <;>
      simp [h, metalClusterEntry, metalMachineEntry, serverBindingEntry, theManager,
        mainRecorder]

/-- Witness for C4 (amended) at the default configuration: the
MetalMachine entry carries the recorder and three reconcilers are
registered. -/
theorem C4_recorder_binding_witness :
    (metalMachineEntry (theManager defaultConfig)
          (mainRecorder (theManager defaultConfig))).recorder =
        some (mainRecorder (theManager defaultConfig)) ∧
      (runMain defaultConfig okEnv).registeredReconcilers.length = 3 := by
  have h := C4_recorder_binding defaultConfig okEnv (by decide) (by decide)
  refine ⟨?_, h.1⟩
  have h2 := h.2 (metalMachineEntry (theManager defaultConfig)
    (mainRecorder (theManager defaultConfig))) (by decide)
  have h3 := h2.2.2
  rw [if_neg (by decide)] at h3
  exact h3

/-- C6: once the manager and client are constructed, the first failing
registration in the selected mode logs an error naming that specific
controller/webhook, exits 1, leaves the manager unstarted, attempts no
later registration, and registers exactly the ones before the failing
one. -/
theorem C6_registration_failure (cfg : Config) (env : Env)
    (hg : env.getConfigErr = none) (hnm : env.newManagerErr = none)
    (hnf : env.newForConfigErr = none) :
    (∀ n, cfg.webhookPort = 0 → firstFailingReconciler env = some n →
      (runMain cfg env).exit = some 1 ∧
        (runMain cfg env).managerStarted = false ∧
        (runMain cfg env).errorLog.map (fun l => (l.msg, l.kvs)) =
          [("unable to create controller", [("controller", n.str)])] ∧
        (runMain cfg env).attemptedReconcilers = reconAttemptedUpTo n ∧
        (runMain cfg env).registeredReconcilers.map (fun r => r.name) =
          (reconAttemptedUpTo n).dropLast) ∧
      (∀ n, cfg.webhookPort ≠ 0 → firstFailingWebhook env = some n →
        (runMain cfg env).exit = some 1 ∧
          (runMain cfg env).managerStarted = false ∧
          (runMain cfg env).errorLog.map (fun l => (l.msg, l.kvs)) =
            [("unable to create webhook", [("webhook", n.str)])] ∧
          (runMain cfg env).attemptedWebhooks = whAttemptedUpTo n ∧
          (runMain cfg env).registeredWebhooks = (whAttemptedUpTo n).dropLast) := by
  constructor
  · intro n hp hf
    rcases hmc : env.metalClusterSetupErr with _ | e1
    · rcases hmm : env.metalMachineSetupErr with _ | e2
      · rcases hsb : env.serverBindingSetupErr with _ | e3
        · simp [firstFailingReconciler, hmc, hmm, hsb] at hf
        · simp [firstFailingReconciler, hmc, hmm, hsb] at hf
          subst hf
          simp [runMain, reconBranch, startStep, hg, hnm, hnf, hmc, hmm, hsb, hp,
            reconAttemptedUpTo, ReconcilerName.str, metalClusterEntry, metalMachineEntry]
      · simp [firstFailingReconciler, hmc, hmm] at hf
        subst hf
        simp [runMain, reconBranch, startStep, hg, hnm, hnf, hmc, hmm, hp,
          reconAttemptedUpTo, ReconcilerName.str, metalClusterEntry]
    · simp [firstFailingReconciler, hmc] at hf
      subst hf
      simp [runMain, reconBranch, startStep, hg, hnm, hnf, hmc, hp,
        reconAttemptedUpTo, ReconcilerName.str]
  · intro n hp hf
    rcases hw1 : env.whMetalClusterErr with _ | e1
    · rcases hw2 : env.whMetalMachineErr with _ | e2
      · rcases hw3 : env.whMetalMachineTemplateErr with _ | e3
        · rcases hw4 : env.whServerBindingErr with _ | e4
          · simp [firstFailingWebhook, hw1, hw2, hw3, hw4] at hf
          · simp [firstFailingWebhook, hw1, hw2, hw3, hw4] at hf
            subst hf
            simp [runMain, webhookBranch, startStep, hg, hnm, hnf, hw1, hw2, hw3, hw4,
              hp, whAttemptedUpTo, WebhookName.str]
        · simp [firstFailingWebhook, hw1, hw2, hw3] at hf
          subst hf
          simp [runMain, webhookBranch, startStep, hg, hnm, hnf, hw1, hw2, hw3, hp,
            whAttemptedUpTo, WebhookName.str]
      · simp [firstFailingWebhook, hw1, hw2] at hf
        subst hf
        simp [runMain, webhookBranch, startStep, hg, hnm, hnf, hw1, hw2, hp,
          whAttemptedUpTo, WebhookName.str]
    · simp [firstFailingWebhook, hw1] at hf
      subst hf
      simp [runMain, webhookBranch, startStep, hg, hnm, hnf, hw1, hp,
        whAttemptedUpTo, WebhookName.str]

/-- Witness for C6: the MetalMachine registration fails at the default
configuration; the process exits 1 with the naming log, the manager is
never started, ServerBinding is never attempted, and only MetalCluster
is registered. -/
theorem C6_registration_failure_witness :
    (runMain defaultConfig metalMachineFailEnv).exit = some 1 ∧
      (runMain defaultConfig metalMachineFailEnv).managerStarted = false ∧
      (runMain defaultConfig metalMachineFailEnv).errorLog.map (fun l => (l.msg, l.kvs)) =
        [("unable to create controller", [("controller", "MetalMachine")])] ∧
      (runMain defaultConfig metalMachineFailEnv).attemptedReconcilers =
        [.MetalCluster, .MetalMachine] ∧
      (runMain defaultConfig metalMachineFailEnv).registeredReconcilers.map
          (fun r => r.name) = [.MetalCluster] := by
  have h := (C6_registration_failure defaultConfig metalMachineFailEnv
    (by decide) (by decide) (by decide)).1 .MetalMachine (by decide) (by decide)
  simpa [reconAttemptedUpTo, ReconcilerName.str] using h

/-- C7: if `ctrl.NewManager` fails, the process logs
"unable to start manager" and exits 1 with the manager never started and
no reconciler or webhook registered or even attempted. -/
theorem C7_construction_failure (cfg : Config) (env : Env) (e : String)
    (hg : env.getConfigErr = none) (hnm : env.newManagerErr = some e) :
    (runMain cfg env).exit = some 1 ∧
      (runMain cfg env).managerStarted = false ∧
      (runMain cfg env).registeredReconcilers = [] ∧
      (runMain cfg env).registeredWebhooks = [] ∧
      (runMain cfg env).attemptedReconcilers = [] ∧
      (runMain cfg env).attemptedWebhooks = [] ∧
      (runMain cfg env).errorLog = [⟨e, "unable to start manager", []⟩] := by
  simp [runMain, startStep, hg, hnm]

/-- Witness for C7 at a concrete failing construction. -/
theorem C7_construction_failure_witness :
    (runMain defaultConfig mgrConstructionFailEnv).exit = some 1 ∧
      (runMain defaultConfig mgrConstructionFailEnv).managerStarted = false ∧
      (runMain defaultConfig mgrConstructionFailEnv).registeredReconcilers = [] ∧
      (runMain defaultConfig mgrConstructionFailEnv).registeredWebhooks = [] ∧
      (runMain defaultConfig mgrConstructionFailEnv).attemptedReconcilers = [] ∧
      (runMain defaultConfig mgrConstructionFailEnv).attemptedWebhooks = [] ∧
      (runMain defaultConfig mgrConstructionFailEnv).errorLog =
        [⟨"connection refused", "unable to start manager", []⟩] :=
  C7_construction_failure defaultConfig mgrConstructionFailEnv "connection refused"
    (by decide) (by decide)

/-- C9: a failing debug listener logs "failed to start debug server" and
calls `os.Exit(1)`, so the process terminates with status 1 no matter
what the rest of the startup would have done. -/
theorem C9_debug_listener_fatal (cfg : Config) (env : Env) (e : String)
    (hd : env.debugServeErr = some e) :
    (debugServerGoroutine env.debugServeErr).exit = some 1 ∧
      (debugServerGoroutine env.debugServeErr).errorLog =
        [⟨e, "failed to start debug server", []⟩] ∧
      processExitsOne cfg env = true := by
  simp [debugServerGoroutine, processExitsOne, hd]

/-- Witness for C9: the debug listener fails while every other call
succeeds — the goroutine exits 1 even though the manager construction
and run loop would have completed cleanly. -/
theorem C9_debug_listener_fatal_witness :
    (debugServerGoroutine debugFailEnv.debugServeErr).exit = some 1 ∧
      processExitsOne defaultConfig debugFailEnv = true ∧
      (runMain defaultConfig debugFailEnv).exit = some 0 := by
  have h := C9_debug_listener_fatal defaultConfig debugFailEnv
    "address already in use" (by decide)
  exact ⟨h.1, h.2.2, by decide⟩

/-- Counterexample to C10 as stated: when manager construction fails,
the execution constructs only one broadcaster, not two. -/
theorem C10_counterexample :
    (runMain defaultConfig mgrConstructionFailEnv).broadcastersConstructed =
        [mainBroadcaster] ∧
      ¬ ((runMain defaultConfig mgrConstructionFailEnv).broadcastersConstructed.length
          = 2) := by
  decide

/-- C10 (amended): in every execution that survives manager and client
construction, exactly two distinct broadcasters are constructed; the
burst-100 one goes only into the Manager options, while the sink task
and the "caps-controller-manager" recorder use the second,
default-options broadcaster, and that recorder reaches exactly the
MetalMachine and ServerBinding reconcilers. -/
theorem C10_broadcaster_separation (cfg : Config) (env : Env)
    (hg : env.getConfigErr = none) (hnm : env.newManagerErr = none)
    (hnf : env.newForConfigErr = none) :
    (runMain cfg env).broadcastersConstructed = [mainBroadcaster, sinkEventBroadcaster] ∧
      mainBroadcaster ≠ sinkEventBroadcaster ∧
      (mgrOptionsOf cfg).eventBroadcaster = mainBroadcaster ∧
      (runMain cfg env).mgrOptions = some (mgrOptionsOf cfg) ∧
      (runMain cfg env).sinkBroadcaster = some sinkEventBroadcaster ∧
      (runMain cfg env).recorder = some (mainRecorder (theManager cfg)) ∧
      (mainRecorder (theManager cfg)).broadcaster = sinkEventBroadcaster ∧
      (mainRecorder (theManager cfg)).component = "caps-controller-manager" ∧
      (∀ r ∈ (runMain cfg env).registeredReconcilers,
        r.recorder = none ∨ r.recorder = some (mainRecorder (theManager cfg))) ∧
      (env.allOk = true → cfg.webhookPort = 0 →
        (runMain cfg env).registeredReconcilers.filterMap
            (fun r => r.recorder.map (fun _ => r.name)) =
          [.MetalMachine, .ServerBinding]) := by
  refine ⟨?_, by decide, rfl, ?_, ?_, ?_, rfl, rfl, ?_, ?_⟩
  · by_cases hp : cfg.webhookPort = 0 <;> simp [runMain, hg, hnm, hnf, hp]
  · by_cases hp : cfg.webhookPort = 0 <;> simp [runMain, hg, hnm, hnf, hp]
  · by_cases hp : cfg.webhookPort = 0 <;> simp [runMain, hg, hnm, hnf, hp]
  · by_cases hp : cfg.webhookPort = 0 <;> simp [runMain, hg, hnm, hnf, hp]
  · intro r hr
    rcases runMain_mem_reconcilers hr with h | h | h <;>
      simp [h, metalClusterEntry, metalMachineEntry, serverBindingEntry]
  · intro hok hp
    obtain ⟨hg2, hnm2, hnf2, hmc, hmm, hsb, hw1, hw2, hw3, hw4, hms⟩ := allOk_fields hok
    simp [runMain, reconBranch, startStep, hp, hg, hnm, hnf, hmc, hmm, hsb, hms,
      metalClusterEntry, metalMachineEntry, serverBindingEntry]

/-- Witness for C10 (amended) at the default configuration. -/
theorem C10_broadcaster_separation_witness :
    (runMain defaultConfig okEnv).broadcastersConstructed =
        [mainBroadcaster, sinkEventBroadcaster] ∧
      (runMain defaultConfig okEnv).registeredReconcilers.filterMap
          (fun r => r.recorder.map (fun _ => r.name)) =
        [.MetalMachine, .ServerBinding] := by
  have h := C10_broadcaster_separation defaultConfig okEnv
    (by decide) (by decide) (by decide)
  exact ⟨h.1, h.2.2.2.2.2.2.2.2.2 (by decide) (by decide)⟩
